import Mathlib

/-!
# DarkCanvas request-normalization core: shallow embedding

This file embeds, in Lean, the request-shaping and response-unification core of
the DarkCanvas front end:

* `src/lib/models.ts` — the static model registry (`AVAILABLE_MODELS`), aspect
  ratio table (`ASPECT_RATIOS`), `getModelById`, `getDimensionsFromAspectRatio`,
  `detectAspectRatio`, `getValidDimensions`, `getGPTCompatibleSize`;
* `src/lib/image-utils.ts` — the input shaping performed by `generateImage`
  (text-to-image) and `generateImageFromImage` (image-to-image), the
  `prepareImageSize` helper, and the response-structure conversion
  ("Response Unifier") both functions apply to the raw remote result;
* `src/components/generation/GenerationForm.tsx` — the `handleGenerate`
  control flow (validation, status reporting, auto-save with swallowed
  failures).

JavaScript-specific semantics are made explicit: `x || d` treats `0`, `""`,
`undefined` as falsy (`jsOrNat`, `jsOrStr`, …), `x ?? d` only treats
`undefined` as nullish (`Option.getD`), and `String.includes` is substring
containment (`jsIncludes`).  Numbers are modelled as `Int`/`ℚ` (the code only
manipulates small exact values; `detectAspectRatio`'s float division is
modelled as exact rational division).
-/

/-- Characters-as-list prefix test (used to build `jsIncludes`). -/
def listIsPrefix : List Char → List Char → Bool
  | [], _ => true
  | _ :: _, [] => false
  | p :: ps, c :: cs => p = c && listIsPrefix ps cs

/-- Substring occurrence test on character lists. -/
def listContains (hay pat : List Char) : Bool :=
  match hay with
  | [] => listIsPrefix pat []
  | _ :: rest => listIsPrefix pat hay || listContains rest pat

/-- JS `String.prototype.includes` (substring containment). -/
def jsIncludes (s pat : String) : Bool :=
  listContains s.data pat.data

/-- JS `String.prototype.startsWith`. -/
def jsStartsWith (s pat : String) : Bool :=
  listIsPrefix pat.data s.data

/-- JS string length (code points suffice for the ASCII keys involved). -/
def jsLen (s : String) : Nat :=
  s.data.length

/-- JS `a || b` for an optional string: `undefined` and `""` are falsy. -/
def jsOrStr (a : Option String) (b : String) : String :=
  match a with
  | some s => if s = "" then b else s
  | none => b

/-- JS `a || b` for an optional number: `undefined` and `0` are falsy. -/
def jsOrNat (a : Option Nat) (b : Nat) : Nat :=
  match a with
  | some n => if n = 0 then b else n
  | none => b

/-- JS `a || b` for an optional integer: `undefined` and `0` are falsy. -/
def jsOrInt (a : Option Int) (b : Int) : Int :=
  match a with
  | some n => if n = 0 then b else n
  | none => b

/-- JS truthiness of an optional string field (`undefined`/`""` falsy). -/
def jsTruthyStr (a : Option String) : Bool :=
  match a with
  | some s => s ≠ ""
  | none => false

/-- JS truthiness of an optional number field (`undefined`/`0` falsy). -/
def jsTruthyNat (a : Option Nat) : Bool :=
  match a with
  | some n => n ≠ 0
  | none => false

/-- JS whitespace trim (ASCII whitespace, which is all the code relies on). -/
def jsIsSpace (c : Char) : Bool :=
  c = ' ' || c = '\t' || c = '\n' || c = '\r'

/-- JS `String.prototype.trim`. -/
def jsTrim (s : String) : String :=
  ⟨((s.data.dropWhile jsIsSpace).reverse.dropWhile jsIsSpace).reverse⟩

/-! ## Model registry (`src/lib/models.ts`) -/

/-- `GenerationType` from `src/types/index.ts`. -/
inductive GenerationType where
  | textToImage
  | imageToImage
  | textToVideo
deriving DecidableEq, Repr

/-- `inputFormat` variants of `ModelConfig`. -/
inductive InputFormat where
  | image_url
  | image_urls
deriving DecidableEq, Repr

/-- `resolutionSupport` variants of `ModelConfig`. -/
inductive ResolutionSupport where
  | custom
  | presetsOnly
  | noneSupport
deriving DecidableEq, Repr

/-- `resolutionConstraints` record of `ModelConfig`. -/
structure ResolutionConstraints where
  minSize : Option Nat := none
  maxSize : Option Nat := none
  fixedPresets : Option (List String) := none
deriving DecidableEq, Repr

/-- `ModelConfig` from `src/lib/models.ts`. -/
structure ModelConfig where
  id : String
  name : String
  description : String
  costEstimate : String
  generationType : GenerationType
  inputFormat : InputFormat
  requiresOpenAIKey : Bool := false
  resolutionSupport : ResolutionSupport
  supportedAspectRatios : Option (List String) := none
  resolutionConstraints : Option ResolutionConstraints := none
deriving DecidableEq, Repr

/-- Registry entry `fal-ai/fast-lightning-sdxl` (text-to-image). -/
def sdxlLightningModel : ModelConfig :=
  { id := "fal-ai/fast-lightning-sdxl"
  , name := "SDXL-Lightning"
  , description := "Fast and cheap - great for testing"
  , costEstimate := "Free ~$0/image"
  , generationType := .textToImage
  , inputFormat := .image_url
  , resolutionSupport := .custom }

/-- Registry entry `fal-ai/bytedance/seedream/v4/text-to-image`. -/
def seedreamT2IModel : ModelConfig :=
  { id := "fal-ai/bytedance/seedream/v4/text-to-image"
  , name := "SeedDream v4"
  , description := "Higher quality generation"
  , costEstimate := "Low cost ~$0.03/image"
  , generationType := .textToImage
  , inputFormat := .image_url
  , resolutionSupport := .custom
  , resolutionConstraints := some { minSize := some 1024, maxSize := some 4096 } }

/-- Registry entry `fal-ai/gpt-image-1/text-to-image/byok` (BYOK). -/
def gptImageT2IModel : ModelConfig :=
  { id := "fal-ai/gpt-image-1/text-to-image/byok"
  , name := "GPT Image 1 (BYOK)"
  , description := "OpenAI DALL-E - Requires your OpenAI API key"
  , costEstimate := "BYOK - Uses your OpenAI billing"
  , generationType := .textToImage
  , inputFormat := .image_url
  , requiresOpenAIKey := true
  , resolutionSupport := .presetsOnly
  , supportedAspectRatios := some ["square_hd", "landscape_4_3", "landscape_16_9", "portrait_4_3", "portrait_16_9"]
  , resolutionConstraints := some { fixedPresets := some ["auto", "1024x1024", "1536x1024", "1024x1536"] } }

/-- Registry entry `fal-ai/bytedance/seedream/v4/edit` (image-to-image). -/
def seedreamEditModel : ModelConfig :=
  { id := "fal-ai/bytedance/seedream/v4/edit"
  , name := "SeedDream v4 Edit"
  , description := "High-quality image editing and transformation"
  , costEstimate := "Low cost ~$0.03/image"
  , generationType := .imageToImage
  , inputFormat := .image_urls
  , resolutionSupport := .custom
  , resolutionConstraints := some { minSize := some 1024, maxSize := some 4096 } }

/-- Registry entry `fal-ai/nano-banana/edit` (image-to-image). -/
def nanoBananaEditModel : ModelConfig :=
  { id := "fal-ai/nano-banana/edit"
  , name := "Nano-Banana Edit"
  , description := "Gemini-powered image editing"
  , costEstimate := "Higher cost ~$0.039/image"
  , generationType := .imageToImage
  , inputFormat := .image_urls
  , resolutionSupport := .noneSupport
  , supportedAspectRatios := some [] }

/-- Registry entry `fal-ai/gpt-image-1/edit-image/byok` (BYOK, image-to-image). -/
def gptImageEditModel : ModelConfig :=
  { id := "fal-ai/gpt-image-1/edit-image/byok"
  , name := "GPT Image 1 Edit (BYOK)"
  , description := "OpenAI image editing - Requires your OpenAI API key"
  , costEstimate := "BYOK - Uses your OpenAI billing"
  , generationType := .imageToImage
  , inputFormat := .image_urls
  , requiresOpenAIKey := true
  , resolutionSupport := .presetsOnly
  , supportedAspectRatios := some ["square_hd", "landscape_4_3", "landscape_16_9", "portrait_4_3", "portrait_16_9"]
  , resolutionConstraints := some { fixedPresets := some ["auto", "1024x1024", "1536x1024", "1024x1536"] } }

/-- `TEXT_TO_IMAGE_MODELS` from `src/lib/models.ts` (insertion order kept). -/
def TEXT_TO_IMAGE_MODELS : List ModelConfig :=
  [sdxlLightningModel, seedreamT2IModel, gptImageT2IModel]

/-- `IMAGE_TO_IMAGE_MODELS` from `src/lib/models.ts` (insertion order kept). -/
def IMAGE_TO_IMAGE_MODELS : List ModelConfig :=
  [seedreamEditModel, nanoBananaEditModel, gptImageEditModel]

/-- `AVAILABLE_MODELS` from `src/lib/models.ts`. -/
def AVAILABLE_MODELS : List ModelConfig :=
  TEXT_TO_IMAGE_MODELS ++ IMAGE_TO_IMAGE_MODELS

/-- `DEFAULT_TEXT_TO_IMAGE_MODEL` (first entry of the text-to-image table). -/
def DEFAULT_TEXT_TO_IMAGE_MODEL_id : String :=
  "fal-ai/fast-lightning-sdxl"

/-- `getModelById` from `src/lib/models.ts`. -/
def getModelById (id : String) : Option ModelConfig :=
  AVAILABLE_MODELS.find? (fun model => model.id = id)

/-- A `{width, height}` pair (numbers modelled as `Int`). -/
structure Dims where
  width : Int
  height : Int
deriving DecidableEq, Repr

/-- `AspectRatioConfig` from `src/lib/models.ts`. -/
structure AspectRatioConfig where
  id : String
  name : String
  value : String
  description : String
  dimensions : Dims
deriving DecidableEq, Repr

/-- `ASPECT_RATIOS` from `src/lib/models.ts` (insertion order preserved). -/
def ASPECT_RATIOS : List AspectRatioConfig :=
  [ { id := "portrait_16_9", name := "Portrait 9:16", value := "portrait_16_9"
    , description := "Mobile portrait", dimensions := ⟨1080, 1920⟩ }
  , { id := "square_hd", name := "Square 1:1", value := "square_hd"
    , description := "Square format", dimensions := ⟨1024, 1024⟩ }
  , { id := "landscape_4_3", name := "Landscape 4:3", value := "landscape_4_3"
    , description := "Standard landscape", dimensions := ⟨1536, 1152⟩ }
  , { id := "landscape_16_9", name := "Landscape 16:9", value := "landscape_16_9"
    , description := "Widescreen format", dimensions := ⟨1920, 1080⟩ }
  , { id := "portrait_4_3", name := "Portrait 4:3", value := "portrait_4_3"
    , description := "Standard portrait", dimensions := ⟨1152, 1536⟩ } ]

/-- `DEFAULT_ASPECT_RATIO = ASPECT_RATIOS[0]` (Portrait 9:16). -/
def DEFAULT_ASPECT_RATIO : AspectRatioConfig :=
  { id := "portrait_16_9", name := "Portrait 9:16", value := "portrait_16_9"
  , description := "Mobile portrait", dimensions := ⟨1080, 1920⟩ }

/-- `getDimensionsFromAspectRatio` from `src/lib/models.ts`. -/
def getDimensionsFromAspectRatio (aspectRatioValue : String) : Dims :=
  match ASPECT_RATIOS.find? (fun r => r.value = aspectRatioValue) with
  | none => ⟨1080, 1920⟩
  | some aspectRatio => aspectRatio.dimensions

/-- The `ASPECT_RATIOS.find(r => r.id === x)!` lookups in `detectAspectRatio`
(the non-null assertion is modelled by defaulting; every id used exists). -/
def findRatioById (ratioId : String) : AspectRatioConfig :=
  (ASPECT_RATIOS.find? (fun r => r.id = ratioId)).getD DEFAULT_ASPECT_RATIO

/-- `detectAspectRatio` from `src/lib/models.ts`: the float ratio `width/height`
is modelled as an exact rational, and the in-order band scan as a
first-match if-chain. -/
def detectAspectRatio (width height : Int) : AspectRatioConfig :=
  let ratio : ℚ := (width : ℚ) / (height : ℚ)
  if 9/10 ≤ ratio ∧ ratio ≤ 11/10 then findRatioById "square_hd"
  else if 6/5 ≤ ratio ∧ ratio ≤ 7/5 then findRatioById "landscape_4_3"
  else if 8/5 ≤ ratio ∧ ratio ≤ 19/10 then findRatioById "landscape_16_9"
  else if 7/10 ≤ ratio ∧ ratio ≤ 4/5 then findRatioById "portrait_4_3"
  else if 1/2 ≤ ratio ∧ ratio ≤ 13/20 then findRatioById "portrait_16_9"
  else DEFAULT_ASPECT_RATIO

/-- `getValidDimensions` from `src/lib/models.ts`; the guard
`model.resolutionConstraints?.minSize` is JS-truthy (absent or `0` falsy),
and `maxSize || 4096` likewise treats `0` as unset. -/
def getValidDimensions (modelId : String) (requested : Dims) : Dims :=
  match getModelById modelId with
  | none => requested
  | some model =>
      if model.resolutionSupport = .noneSupport then requested
      else
        match model.resolutionConstraints with
        | none => requested
        | some c =>
            if jsTruthyNat c.minSize then
              let minSize : Int := (c.minSize.getD 0 : Nat)
              let maxSize : Int := (jsOrNat c.maxSize 4096 : Nat)
              ⟨max minSize (min maxSize requested.width),
               max minSize (min maxSize requested.height)⟩
            else requested

/-- `getGPTCompatibleSize` from `src/lib/models.ts`. -/
def getGPTCompatibleSize (aspectRatio : String) : String :=
  if aspectRatio = "square_hd" then "1024x1024"
  else if aspectRatio = "landscape_16_9" then "1536x1024"
  else if aspectRatio = "landscape_4_3" then "1536x1024"
  else if aspectRatio = "portrait_16_9" then "1024x1536"
  else if aspectRatio = "portrait_4_3" then "1024x1536"
  else "auto"

/-! ## Request shaping (`generateImage` / `generateImageFromImage` in
`src/lib/image-utils.ts`) -/

/-- The value of the `image_size` input field: either a preset name string or
a `{width, height}` object. -/
inductive SizeVal where
  | preset (s : String)
  | dims (d : Dims)
deriving DecidableEq, Repr

/-- JS `input.image_size || 'auto'`: `undefined` and `""` are falsy, an
object is always truthy. -/
def jsOrSize (a : Option SizeVal) (b : SizeVal) : SizeVal :=
  match a with
  | some (.preset s) => if s = "" then b else .preset s
  | some (.dims d) => .dims d
  | none => b

/-- `GenerationRequest` from `src/lib/image-utils.ts` (text-to-image path). -/
structure GenerationRequest where
  prompt : String
  modelId : Option String := none
  imageSize : Option String := none
  customDimensions : Option Dims := none
  numImages : Option Nat := none
  enableSafetyChecker : Option Bool := none
  numInferenceSteps : Option Nat := none
  imageFormat : Option String := none
  openaiApiKey : Option String := none
  aspectRatio : Option String := none
  seed : Option Int := none
  negativePrompt : Option String := none

/-- `SourceImage` from `src/types/index.ts` (the fields the shaping reads). -/
structure SourceImage where
  url : String
  filename : Option String := none
deriving DecidableEq, Repr

/-- `ImageToImageRequest` from `src/lib/image-utils.ts`. -/
structure ImageToImageRequest where
  prompt : String
  sourceImage : SourceImage
  modelId : String
  strength : Option ℚ := none
  imageSize : Option String := none
  customDimensions : Option Dims := none
  numImages : Option Nat := none
  enableSafetyChecker : Option Bool := none
  numInferenceSteps : Option Nat := none
  imageFormat : Option String := none
  openaiApiKey : Option String := none
  aspectRatio : Option String := none
  seed : Option Int := none
  negativePrompt : Option String := none

/-- The `ShapedInput`: the key/value record assembled into `input` and sent to
`fal.subscribe`.  Absent fields are `none`. -/
structure ShapedInput where
  prompt : String
  num_images : Option Nat := none
  enable_safety_checker : Option Bool := none
  format : Option String := none
  output_format : Option String := none
  sync_mode : Option Bool := none
  seed : Option Int := none
  negative_prompt : Option String := none
  image_size : Option SizeVal := none
  num_inference_steps : Option Nat := none
  guidance_scale : Option ℚ := none
  guidance_scale_2 : Option ℚ := none
  shift : Option ℚ := none
  acceleration : Option String := none
  openai_api_key : Option String := none
  image_url : Option String := none
  image_urls : Option (List String) := none
  strength : Option ℚ := none
  quality : Option String := none
  input_fidelity : Option String := none

/-- `prepareImageSize` from `src/lib/image-utils.ts`. -/
def prepareImageSize (modelId : String) (imageSize : Option String)
    (customDimensions : Option Dims) : Option SizeVal :=
  if jsIncludes modelId "nano-banana" then none
  else if jsIncludes modelId "gpt-image-1" then
    some (.preset (getGPTCompatibleSize (jsOrStr imageSize "square_hd")))
  else
    match customDimensions with
    | some d => some (.dims (getValidDimensions modelId d))
    | none => some (.preset (jsOrStr imageSize "square_hd"))

/-- The model id resolved by `generateImage`:
`request.modelId || DEFAULT_TEXT_TO_IMAGE_MODEL.id`. -/
def resolveT2IModelId (request : GenerationRequest) : String :=
  jsOrStr request.modelId DEFAULT_TEXT_TO_IMAGE_MODEL_id

/-- The input shaping of `generateImage` (`src/lib/image-utils.ts`): the base
object, universal optional parameters, `image_size`, then the
model-family-specific branch (WAN v2.2 / GPT Image 1 / fast default).
Returns the resolved model id together with the `ShapedInput`, or the
message of the error thrown before the network call.  `t2iBase` is the
accumulation of the base object, universal optional parameters and
`image_size` (the part of `generateImage` before the model-family branch). -/
def t2iBase (request : GenerationRequest) (modelId : String) : ShapedInput :=
  let input : ShapedInput :=
    { prompt := request.prompt
    , num_images := some (jsOrNat request.numImages 1)
    , enable_safety_checker := some false
    , format := some (jsOrStr request.imageFormat "png")
    , sync_mode := some true }
  let input := match request.seed with
    | some s => { input with seed := some s }
    | none => input
  let input := if jsTruthyStr request.negativePrompt then
      { input with negative_prompt := request.negativePrompt }
    else input
  match prepareImageSize modelId request.imageSize request.customDimensions with
  | some v => { input with image_size := some v }
  | none => input

/-- The branch dispatch and return of `generateImage` on top of `t2iBase`. -/
def shapeT2I (request : GenerationRequest) : Except String (String × ShapedInput) :=
  let modelId := resolveT2IModelId request
  let input : ShapedInput := t2iBase request modelId
  if jsIncludes modelId "wan/v2.2" then
    .ok (modelId, { input with
      num_inference_steps := some 27
    , guidance_scale := some (7/2)
    , guidance_scale_2 := some 4
    , shift := some 2
    , acceleration := some "regular" })
  else if jsIncludes modelId "gpt-image-1" then
    if ¬ jsTruthyStr request.openaiApiKey then
      .error "OpenAI API key is required for GPT Image 1 models"
    else
      let key := request.openaiApiKey.getD ""
      if ¬ jsStartsWith key "sk-" ∨ jsLen key < 40 then
        .error "Invalid OpenAI API key format. Key must start with \x22sk-\x22 and be at least 40 characters long."
      else
        .ok (modelId, { prompt := jsTrim request.prompt
                      , openai_api_key := some (jsTrim key)
                      , image_size := some (jsOrSize input.image_size (.preset "auto")) })
  else
    .ok (modelId, { input with
      num_inference_steps := some (jsOrNat request.numInferenceSteps 4) })

/-- The base accumulation of `generateImageFromImage`
(`src/lib/image-utils.ts`): base object, universal parameters, format field
naming, and the image field chosen by `modelConfig.inputFormat`. -/
def i2iBase (request : ImageToImageRequest) (modelConfig : ModelConfig) : ShapedInput :=
  let input : ShapedInput :=
    { prompt := request.prompt
    , enable_safety_checker := some (request.enableSafetyChecker.getD false)
    , sync_mode := some true }
  let input := match request.seed with
    | some s => { input with seed := some s }
    | none => input
  let input := if jsTruthyStr request.negativePrompt then
      { input with negative_prompt := request.negativePrompt }
    else input
  let input := if jsIncludes request.modelId "flux" then
      { input with output_format := some (jsOrStr request.imageFormat "png") }
    else
      { input with format := some (jsOrStr request.imageFormat "png") }
  if modelConfig.inputFormat = .image_url then
    let input := { input with image_url := some request.sourceImage.url }
    match request.strength with
    | some st => { input with strength := some st }
    | none => input
  else
    let input := { input with image_urls := some [request.sourceImage.url] }
    match request.strength with
    | some st => { input with strength := some st }
    | none => input

/-- The model-family-specific branch chain of `generateImageFromImage`
(FLUX / Qwen Edit Plus LoRA / WAN v2.2 / GPT Image 1 / default). -/
def i2iBranch (request : ImageToImageRequest) (input : ShapedInput) :
    Except String ShapedInput :=
    if jsIncludes request.modelId "flux" then
      .ok { input with
        num_inference_steps := some (jsOrNat request.numInferenceSteps 40)
      , guidance_scale := some (9/2)
      , negative_prompt := some "low quality, blurry, grainy, distorted, artifacts, compression"
      , image_size := match prepareImageSize request.modelId request.imageSize request.customDimensions with
          | some v => some v
          | none => input.image_size }
    else if jsIncludes request.modelId "qwen-image-edit-plus-lora" then
      .ok { input with
        num_inference_steps := some (jsOrNat request.numInferenceSteps 35)
      , guidance_scale := some 5
      , enable_safety_checker := some false
      , output_format := some (jsOrStr request.imageFormat "png")
      , negative_prompt := some "low quality, blurry, distorted, artifacts, compression"
      , image_size := match prepareImageSize request.modelId request.imageSize request.customDimensions with
          | some v => some v
          | none => input.image_size }
    else if jsIncludes request.modelId "wan/v2.2" then
      .ok { input with
        guidance_scale := some (7/2)
      , guidance_scale_2 := some 4
      , shift := some 2
      , acceleration := some "regular"
      , num_inference_steps := some 27 }
    else if jsIncludes request.modelId "gpt-image-1" then
      if ¬ jsTruthyStr request.openaiApiKey then
        .error "OpenAI API key is required for GPT Image 1 models"
      else
        .ok { input with
          image_url := none
        , image_urls := some [request.sourceImage.url]
        , num_images := some (jsOrNat request.numImages 1)
        , quality := some "auto"
        , input_fidelity := some "low"
        , openai_api_key := request.openaiApiKey
        , image_size := some (.preset (getGPTCompatibleSize (jsOrStr request.imageSize "square_hd"))) }
    else
      .ok { input with
        image_size := match prepareImageSize request.modelId request.imageSize request.customDimensions with
          | some v => some v
          | none => input.image_size }

/-- The input shaping of `generateImageFromImage`: registry lookup, base
accumulation (`i2iBase`), branch chain (`i2iBranch`), and the trailing
`num_images` / `num_inference_steps` overrides. -/
def shapeI2I (request : ImageToImageRequest) : Except String ShapedInput :=
  match getModelById request.modelId with
  | none => .error ("Unknown model: " ++ request.modelId)
  | some modelConfig =>
  match i2iBranch request (i2iBase request modelConfig) with
  | .error e => .error e
  | .ok input =>
  let input := if jsTruthyNat request.numImages then
      { input with num_images := request.numImages }
    else input
  let input := if jsTruthyNat request.numInferenceSteps
      ∧ ¬ jsIncludes request.modelId "wan/v2.2"
      ∧ ¬ jsIncludes request.modelId "gpt-image-1" then
      { input with num_inference_steps := request.numInferenceSteps }
    else input
  .ok input

/-! ## Response unification (the post-`fal.subscribe` conversion in
`generateImage`, `src/lib/image-utils.ts`) -/

/-- One entry of a remote `images`/`output` array: either a bare URL string or
an object with a `url` and possibly `width`/`height`. -/
inductive ImgEntry where
  | strE (s : String)
  | objE (url : String) (width height : Option Int)
deriving DecidableEq, Repr

/-- A remote singular `image` field: object with `url`, or bare URL string. -/
inductive ImageVal where
  | obj (url : String) (width height : Option Int)
  | str (s : String)
deriving DecidableEq, Repr

/-- A remote `output` field: bare string or array of entries. -/
inductive OutputVal where
  | str (s : String)
  | arr (entries : List ImgEntry)
deriving DecidableEq, Repr

/-- The raw remote response, as far as the conversion logic inspects it
(an `images` field, when present, is an array; `usage` is an opaque
payload copied through). -/
structure RemoteResponse where
  images : Option (List ImgEntry) := none
  image : Option ImageVal := none
  output : Option OutputVal := none
  url : Option String := none
  video : Option String := none
  usage : Option Nat := none
  seed : Option Int := none
deriving DecidableEq, Repr

/-- One entry of the canonical `GenerationResult.images` array.  `width` and
`height` are optional because the `output`-array branch passes non-string
entries through without filling dimensions. -/
structure GenImage where
  url : String
  width : Option Int := none
  height : Option Int := none
deriving DecidableEq, Repr

/-- The canonical result assembled by `generateImage` after conversion. -/
structure UnifiedResult where
  images : List GenImage
  seed : Option Int := none
  usage : Option Nat := none
  aspectRatio : Option String := none
deriving DecidableEq, Repr

/-- The error thrown when no known response shape matched; it carries the raw
response (the source interpolates `JSON.stringify(result)` into the message). -/
inductive UnifyError where
  | unrecognized (modelId : String) (raw : RemoteResponse)
deriving DecidableEq, Repr

/-- JS truthiness of the singular `image` field: an object is truthy, a bare
string is truthy iff non-empty. -/
def jsTruthyImage : Option ImageVal → Bool
  | some (.obj _ _ _) => true
  | some (.str s) => s ≠ ""
  | none => false

/-- JS truthiness of the `output` field: an array is truthy (even empty), a
bare string is truthy iff non-empty. -/
def jsTruthyOutput : Option OutputVal → Bool
  | some (.str s) => s ≠ ""
  | some (.arr _) => true
  | none => false

/-- `getCorrectDimensions` from `src/lib/image-utils.ts`: dimensions for the
requested aspect ratio, defaulting to portrait 1080×1920. -/
def getCorrectDimensions (aspectRatio : Option String) : Dims :=
  match aspectRatio with
  | some a => if a = "" then ⟨1080, 1920⟩ else getDimensionsFromAspectRatio a
  | none => ⟨1080, 1920⟩

/-- The per-entry normalization
`{url: typeof img === 'string' ? img : img.url, width: img.width || cw, height: img.height || ch}`
applied to a present `images` array (also the map in the GPT branch of the
conversion, which is textually the same). -/
def normEntry (correct : Dims) : ImgEntry → GenImage
  | .strE s => ⟨s, some correct.width, some correct.height⟩
  | .objE u w h => ⟨u, some (jsOrInt w correct.width), some (jsOrInt h correct.height)⟩

/-- The image list produced by the "Converting response structure" block of
`generateImage` when the response has no `images` array: the GPT-model
branch re-probes `images` only, other models probe `image`, then `output`,
then bare `url`, in that order; `output`-array object entries are passed
through without dimension filling. -/
def convertImages (modelId : String) (correct : Dims) (resp : RemoteResponse) :
    List GenImage :=
  if jsIncludes modelId "gpt-image-1" then
    match resp.images with
    | some arr => arr.map (normEntry correct)
    | none => []
  else
    if jsTruthyImage resp.image then
      match resp.image with
      | some (.obj u w h) =>
          [⟨u, some (jsOrInt w correct.width), some (jsOrInt h correct.height)⟩]
      | some (.str s) => [⟨s, some correct.width, some correct.height⟩]
      | none => []
    else if jsTruthyOutput resp.output then
      match resp.output with
      | some (.arr entries) =>
          entries.map (fun e =>
            match e with
            | .strE s => ⟨s, some correct.width, some correct.height⟩
            | .objE u w h => ⟨u, w, h⟩)
      | some (.str s) => [⟨s, some correct.width, some correct.height⟩]
      | none => []
    else if jsTruthyStr resp.url then
      [⟨resp.url.getD "", some correct.width, some correct.height⟩]
    else []

/-- The response post-processing of `generateImage` (`src/lib/image-utils.ts`):
a present top-level `images` array is dimension-normalized and returned; a
response without one goes through `convertImages`, and an empty conversion
throws the unrecognized-structure error.  `seed` and `usage` ride along on
the cast result object; `aspectRatio` is echoed from the request when
truthy. -/
def unifyT2I (modelId : String) (aspectRatio : Option String)
    (resp : RemoteResponse) : Except UnifyError UnifiedResult :=
  let correct := getCorrectDimensions aspectRatio
  let echo : Option String := if jsTruthyStr aspectRatio then aspectRatio else none
  match resp.images with
  | some arr =>
      .ok { images := arr.map (normEntry correct)
          , seed := resp.seed, usage := resp.usage, aspectRatio := echo }
  | none =>
      let images := convertImages modelId correct resp
      if images.length > 0 then
        .ok { images := images
            , seed := resp.seed, usage := resp.usage, aspectRatio := echo }
      else
        .error (.unrecognized modelId resp)

/-! ## `handleGenerate` control flow
(`src/components/generation/GenerationForm.tsx`) -/

/-- `ImageGeneration.status` values reachable in `handleGenerate`. -/
inductive GenStatus where
  | generating
  | complete
  | errorStatus
deriving DecidableEq, Repr

/-- The slice of an `ImageGeneration` record that `handleGenerate` reports
through `onGeneration` and that the claims inspect. -/
structure EmittedGeneration where
  status : GenStatus
  images : List GenImage := []
  errorField : Option String := none
deriving DecidableEq, Repr

/-- The component state `handleGenerate` reads. -/
structure FormState where
  generationType : GenerationType
  prompt : String
  sourceImage : Option SourceImage := none
  falConfigured : Bool := true
  selectedModel : String
  openaiApiKey : String := ""
  autoDownload : Bool := true
  useDirectoryPicker : Bool := false
  selectedDirectoryName : Option String := none

/-- Outcomes of the suspending calls `handleGenerate` awaits: the generation
call itself, `saveImagesToDirectory` (returning a saved count), the
fallback `downloadImages` after a partial directory save, and the plain
`downloadImages` path.  An `.error` value models the promise rejecting. -/
structure GenerationOracles where
  genCall : Except String UnifiedResult
  dirSave : Except String Nat := .ok 0
  fallbackDownload : Except String Unit := .ok ()
  plainDownload : Except String Unit := .ok ()

/-- What `handleGenerate` leaves behind: the `onGeneration` emissions in
order, the user-visible `error` state, the `isGenerating` flag after the
`finally`, and whether a save-step failure was caught and only logged. -/
structure FormOutcome where
  emitted : List EmittedGeneration
  errorMsg : Option String
  isGenerating : Bool
  saveFailureSwallowed : Bool := false
deriving DecidableEq, Repr

/-- `currentModel?.requiresOpenAIKey` (optional chaining: unknown model is
`undefined`, hence falsy). -/
def formRequiresKey (st : FormState) : Bool :=
  match getModelById st.selectedModel with
  | some m => m.requiresOpenAIKey
  | none => false

/-- `handleGenerate` from `GenerationForm.tsx`: the validation early-returns,
the pending emission, the awaited generation call, the completed/failed
emission, and the auto-save block whose failures are caught and logged
without touching `error` or the reported generation.  `friendly` stands for
`getUserFriendlyError` (defined in `src/lib/error-utils`, outside the
embedded core); the claims proved below do not depend on it. -/
def handleGenerate (st : FormState) (friendly : String → String)
    (o : GenerationOracles) : FormOutcome :=
  if jsTrim st.prompt = "" then
    { emitted := [], errorMsg := some "Please enter a prompt", isGenerating := false }
  else if st.generationType = .imageToImage ∧ st.sourceImage = none then
    { emitted := []
    , errorMsg := some "Please upload a source image for image-to-image generation"
    , isGenerating := false }
  else if ¬ st.falConfigured then
    { emitted := [], errorMsg := some "Please set VITE_FAL_API_KEY in your .env file"
    , isGenerating := false }
  else if formRequiresKey st ∧ jsTrim st.openaiApiKey = "" then
    { emitted := []
    , errorMsg := some "Please provide your OpenAI API key for this BYOK model"
    , isGenerating := false }
  else if formRequiresKey st ∧ ¬ jsStartsWith st.openaiApiKey "sk-" then
    { emitted := []
    , errorMsg := some "Invalid OpenAI API key format. Keys should start with \x22sk-\x22"
    , isGenerating := false }
  else
    let pending : EmittedGeneration := { status := .generating }
    let callResult : Except String UnifiedResult :=
      if st.generationType = .imageToImage ∧ st.sourceImage = none then
        .error "Source image is required for image-to-image generation"
      else o.genCall
    match callResult with
    | .error e =>
        { emitted := [pending, { status := .errorStatus, errorField := some e }]
        , errorMsg := some (friendly e), isGenerating := false }
    | .ok result =>
        let completed : EmittedGeneration :=
          { status := .complete, images := result.images }
        let saveFailure : Option String :=
          if st.autoDownload ∧ result.images.length > 0 then
            if st.useDirectoryPicker ∧ jsTruthyStr st.selectedDirectoryName then
              match o.dirSave with
              | .error e => some e
              | .ok savedCount =>
                  if savedCount < result.images.length then
                    match o.fallbackDownload with
                    | .error e => some e
                    | .ok _ => none
                  else none
            else
              match o.plainDownload with
              | .error e => some e
              | .ok _ => none
          else none
        { emitted := [pending, completed], errorMsg := none
        , isGenerating := false, saveFailureSwallowed := saveFailure.isSome }

/-! ## Concrete inputs used by counterexamples and witnesses -/

/-- An image-to-image request targeting the GPT *text-to-image* registry entry
(whose descriptor has the singular `image_url` shape). -/
def c6Req : ImageToImageRequest :=
  { prompt := "p"
  , sourceImage := ⟨"https://img.example/cat.png", none⟩
  , modelId := "fal-ai/gpt-image-1/text-to-image/byok"
  , openaiApiKey := some "sk-x" }

/-- An image-to-image request targeting the SeedDream edit entry (list shape). -/
def c6WitnessReq : ImageToImageRequest :=
  { prompt := "p"
  , sourceImage := ⟨"https://img.example/dog.png", none⟩
  , modelId := "fal-ai/bytedance/seedream/v4/edit" }

/-- The ShapedInput `shapeI2I` produces for `c6WitnessReq`. -/
def c6WitnessOut : ShapedInput :=
  { prompt := "p"
  , enable_safety_checker := some false
  , format := some "png"
  , sync_mode := some true
  , image_size := some (.preset "square_hd")
  , image_urls := some ["https://img.example/dog.png"] }

/-- The canonical single-image success carrying url `u`, with dimensions
filled from the requested aspect ratio and the aspect ratio echoed when
truthy (used to state the shape-invariance claim). -/
def oneImageFilled (ar : Option String) (u : String) : UnifiedResult :=
  { images := [⟨u, some (getCorrectDimensions ar).width,
                   some (getCorrectDimensions ar).height⟩]
  , aspectRatio := if jsTruthyStr ar = true then ar else none }

/-! ## Helper lemmas -/

/-- A successful `getModelById` lookup returns a registry member carrying the
looked-up id. -/
theorem getModelById_mem {s : String} {m : ModelConfig}
    (h : getModelById s = some m) : m ∈ AVAILABLE_MODELS ∧ s = m.id := by
  unfold getModelById at h
  refine ⟨List.mem_of_find?_eq_some h, ?_⟩
  have hp := List.find?_some h
  simp at hp
  exact hp.symm

/-- The registry has exactly its six entries. -/
theorem mem_AVAILABLE_MODELS {m : ModelConfig} (h : m ∈ AVAILABLE_MODELS) :
    m = sdxlLightningModel ∨ m = seedreamT2IModel ∨ m = gptImageT2IModel ∨
    m = seedreamEditModel ∨ m = nanoBananaEditModel ∨ m = gptImageEditModel := by
  simp [AVAILABLE_MODELS, TEXT_TO_IMAGE_MODELS, IMAGE_TO_IMAGE_MODELS] at h
  tauto

/-- No registry id mentions the FLUX, Qwen-LoRA or WAN v2.2 families, so those
branches of `generateImageFromImage` are unreachable through the registry. -/
theorem registry_id_not_special {m : ModelConfig} (hm : m ∈ AVAILABLE_MODELS) :
    jsIncludes m.id "flux" = false
    ∧ jsIncludes m.id "qwen-image-edit-plus-lora" = false
    ∧ jsIncludes m.id "wan/v2.2" = false := by
  rcases mem_AVAILABLE_MODELS hm with h | h | h | h | h | h <;> subst h <;>
    exact ⟨rfl, rfl, rfl⟩

/-- The text-to-image base accumulation always carries
`enable_safety_checker: false`. -/
theorem t2iBase_safety (req : GenerationRequest) (m : String) :
    (t2iBase req m).enable_safety_checker = some false := by
  unfold t2iBase
  rcases req.seed <;>
    rcases prepareImageSize m req.imageSize req.customDimensions <;>
    split_ifs <;> rfl

/-- The text-to-image base accumulation carries the request seed verbatim. -/
theorem t2iBase_seed (req : GenerationRequest) (m : String) :
    (t2iBase req m).seed = req.seed := by
  unfold t2iBase
  rcases hs : req.seed <;>
    rcases prepareImageSize m req.imageSize req.customDimensions <;>
    split_ifs <;> simp [hs]

/-- The image-to-image base accumulation carries
`enable_safety_checker: request.enableSafetyChecker ?? false`. -/
theorem i2iBase_safety (req : ImageToImageRequest) (mc : ModelConfig) :
    (i2iBase req mc).enable_safety_checker
      = some (req.enableSafetyChecker.getD false) := by
  unfold i2iBase
  rcases req.seed <;> rcases req.strength <;>
    rcases mc.inputFormat <;> split_ifs <;> rfl

/-- The image-to-image base accumulation carries the request seed verbatim. -/
theorem i2iBase_seed (req : ImageToImageRequest) (mc : ModelConfig) :
    (i2iBase req mc).seed = req.seed := by
  unfold i2iBase
  rcases hs : req.seed <;> rcases req.strength <;>
    rcases mc.inputFormat <;> split_ifs <;> simp [hs]

/-- The image field of the image-to-image base accumulation follows the
descriptor: singular `image_url` for the `image_url` format, a one-element
`image_urls` list for the `image_urls` format, mutually exclusively. -/
theorem i2iBase_image_fields (req : ImageToImageRequest) (mc : ModelConfig) :
    (mc.inputFormat = .image_url →
       (i2iBase req mc).image_url = some req.sourceImage.url
       ∧ (i2iBase req mc).image_urls = none)
    ∧ (mc.inputFormat = .image_urls →
       (i2iBase req mc).image_urls = some [req.sourceImage.url]
       ∧ (i2iBase req mc).image_url = none) := by
  unfold i2iBase
  rcases hf : mc.inputFormat <;> rcases req.seed <;> rcases req.strength <;>
    split_ifs <;> simp_all

/-- The base accumulation never sets `openai_api_key`. -/
theorem i2iBase_key (req : ImageToImageRequest) (mc : ModelConfig) :
    (i2iBase req mc).openai_api_key = none := by
  unfold i2iBase
  rcases mc.inputFormat <;> rcases req.seed <;> rcases req.strength <;>
    split_ifs <;> rfl

/-- Inversion for `shapeI2I`: a success factors through a registry lookup and
a branch success, and the trailing overrides only touch `num_images` and
`num_inference_steps`. -/
theorem shapeI2I_ok_inv {req : ImageToImageRequest} {inp : ShapedInput}
    (h : shapeI2I req = .ok inp) :
    ∃ mc binp, getModelById req.modelId = some mc
      ∧ i2iBranch req (i2iBase req mc) = .ok binp
      ∧ inp.enable_safety_checker = binp.enable_safety_checker
      ∧ inp.seed = binp.seed
      ∧ inp.image_url = binp.image_url
      ∧ inp.image_urls = binp.image_urls
      ∧ inp.openai_api_key = binp.openai_api_key := by
  unfold shapeI2I at h
  rcases hm : getModelById req.modelId with _ | mc <;> simp only [hm] at h
  · cases h
  · rcases hb : i2iBranch req (i2iBase req mc) with e | binp <;> simp only [hb] at h
    · cases h
    · refine ⟨mc, binp, by simp [hm], by simp [hb], ?_⟩
      split_ifs at h <;>
        (simp only [Except.ok.injEq] at h; subst h; exact ⟨rfl, rfl, rfl, rfl, rfl⟩)

/-- Inversion for `i2iBranch` when the model id belongs to none of the FLUX,
Qwen and WAN families: the GPT branch requires a truthy credential and
rewrites the image/key/size fields; the default branch only resolves
`image_size`. -/
theorem i2iBranch_nonspecial_inv {req : ImageToImageRequest}
    {input out : ShapedInput}
    (hfl : jsIncludes req.modelId "flux" = false)
    (hqw : jsIncludes req.modelId "qwen-image-edit-plus-lora" = false)
    (hwn : jsIncludes req.modelId "wan/v2.2" = false)
    (h : i2iBranch req input = .ok out) :
    (jsIncludes req.modelId "gpt-image-1" = true →
       jsTruthyStr req.openaiApiKey = true
       ∧ out = { input with
            image_url := none
          , image_urls := some [req.sourceImage.url]
          , num_images := some (jsOrNat req.numImages 1)
          , quality := some "auto"
          , input_fidelity := some "low"
          , openai_api_key := req.openaiApiKey
          , image_size := some (.preset (getGPTCompatibleSize (jsOrStr req.imageSize "square_hd"))) })
    ∧ (jsIncludes req.modelId "gpt-image-1" = false →
       out = { input with
          image_size := match prepareImageSize req.modelId req.imageSize req.customDimensions with
            | some v => some v
            | none => input.image_size }) := by
  unfold i2iBranch at h
  split_ifs at h with h1 h2 h3 h4 h5
  · rw [hfl] at h1; cases h1
  · rw [hqw] at h2; cases h2
  · rw [hwn] at h3; cases h3
  · simp only [Except.ok.injEq] at h
    subst h
    exact ⟨fun _ => ⟨by simpa using h5, rfl⟩, fun hg => by rw [hg] at h4; cases h4⟩
  · simp only [Except.ok.injEq] at h
    subst h
    exact ⟨fun hg => absurd hg h4, fun _ => rfl⟩

/-- Inversion for `shapeT2I`: a success resolves the default model id and
lands in exactly one of the WAN, GPT or default branches; the GPT branch
implies the credential checks passed and rebuilds the input from scratch. -/
theorem shapeT2I_ok_inv {req : GenerationRequest} {mid : String}
    {inp : ShapedInput} (h : shapeT2I req = .ok (mid, inp)) :
    mid = resolveT2IModelId req
    ∧ (jsIncludes mid "wan/v2.2" = true →
         inp = { t2iBase req mid with
            num_inference_steps := some 27
          , guidance_scale := some (7/2)
          , guidance_scale_2 := some 4
          , shift := some 2
          , acceleration := some "regular" })
    ∧ (jsIncludes mid "wan/v2.2" = false → jsIncludes mid "gpt-image-1" = true →
         jsTruthyStr req.openaiApiKey = true
         ∧ jsStartsWith (req.openaiApiKey.getD "") "sk-" = true
         ∧ ¬ jsLen (req.openaiApiKey.getD "") < 40
         ∧ inp = { prompt := jsTrim req.prompt
                 , openai_api_key := some (jsTrim (req.openaiApiKey.getD ""))
                 , image_size := some (jsOrSize (t2iBase req mid).image_size (.preset "auto")) })
    ∧ (jsIncludes mid "wan/v2.2" = false → jsIncludes mid "gpt-image-1" = false →
         inp = { t2iBase req mid with
            num_inference_steps := some (jsOrNat req.numInferenceSteps 4) }) := by
  simp only [shapeT2I] at h
  split_ifs at h with hw hg hk hf
  · simp only [Except.ok.injEq, Prod.mk.injEq] at h
    obtain ⟨h1, h2⟩ := h
    subst h1; subst h2
    refine ⟨rfl, fun _ => rfl, fun hfw _ => ?_, fun hfw _ => ?_⟩ <;>
      (rw [hw] at hfw; cases hfw)
  · simp only [Except.ok.injEq, Prod.mk.injEq] at h
    obtain ⟨h1, h2⟩ := h
    subst h1; subst h2
    push_neg at hf
    refine ⟨rfl, fun hfw => ?_, fun _ _ => ?_, fun _ hfg => ?_⟩
    · exact absurd hfw hw
    · exact ⟨by simpa using hk, by simpa using hf.1, by simpa using hf.2, rfl⟩
    · rw [hg] at hfg; cases hfg
  · simp only [Except.ok.injEq, Prod.mk.injEq] at h
    obtain ⟨h1, h2⟩ := h
    subst h1; subst h2
    refine ⟨rfl, fun hfw => ?_, fun _ hfg => ?_, fun _ _ => rfl⟩
    · exact absurd hfw hw
    · exact absurd hfg hg

/-! ## Claims -/

/-- C1 (counterexample): the claim says the ShapedInput's safety-filter field
is `false` regardless of what the caller supplied.  But the image-to-image
path copies the caller's value: a SeedDream-edit request with
`enableSafetyChecker: true` produces `enable_safety_checker: true`. -/
theorem c1_safety_counterexample :
    (shapeI2I { prompt := "p", sourceImage := ⟨"https://img.example/cat.png", none⟩
              , modelId := "fal-ai/bytedance/seedream/v4/edit"
              , enableSafetyChecker := some true }).map
        (fun i => i.enable_safety_checker) = .ok (some true) := rfl

/-- C1 (amended): in the text-to-image path `enable_safety_checker` is always
`some false` except in the GPT branch, whose rebuilt input carries no safety
field at all; in the image-to-image path the field equals
`request.enableSafetyChecker ?? false`, i.e. the caller's value with a
default of `false` — not `false` unconditionally. -/
theorem c1_safety_amended :
    (∀ (req : GenerationRequest) (mid : String) (inp : ShapedInput),
       shapeT2I req = .ok (mid, inp) →
       ((jsIncludes mid "wan/v2.2" = true ∨ jsIncludes mid "gpt-image-1" = false) →
          inp.enable_safety_checker = some false)
       ∧ ((jsIncludes mid "wan/v2.2" = false ∧ jsIncludes mid "gpt-image-1" = true) →
          inp.enable_safety_checker = none))
    ∧ (∀ (req : ImageToImageRequest) (inp : ShapedInput),
       shapeI2I req = .ok inp →
       inp.enable_safety_checker = some (req.enableSafetyChecker.getD false)) := by
  constructor
  · intro req mid inp h
    obtain ⟨hmid, hwanb, hgptb, hdefb⟩ := shapeT2I_ok_inv h
    constructor
    · rintro (hw | hg)
      · rw [hwanb hw]
        exact t2iBase_safety req mid
      · by_cases hw2 : jsIncludes mid "wan/v2.2" = true
        · rw [hwanb hw2]
          exact t2iBase_safety req mid
        · simp only [Bool.not_eq_true] at hw2
          rw [hdefb hw2 hg]
          exact t2iBase_safety req mid
    · rintro ⟨hwf, hgt⟩
      rw [(hgptb hwf hgt).2.2.2]
  · intro req inp h
    obtain ⟨mc, binp, hm, hb, hsafe, -, -, -, -⟩ := shapeI2I_ok_inv h
    obtain ⟨hmem, hid⟩ := getModelById_mem hm
    obtain ⟨hfl, hqw, hwn⟩ := registry_id_not_special hmem
    obtain ⟨hgpt_case, hdef_case⟩ := i2iBranch_nonspecial_inv
      (by rw [hid]; exact hfl) (by rw [hid]; exact hqw) (by rw [hid]; exact hwn) hb
    rw [hsafe]
    by_cases hg : jsIncludes req.modelId "gpt-image-1" = true
    · rw [(hgpt_case hg).2]
      exact i2iBase_safety req mc
    · simp only [Bool.not_eq_true] at hg
      rw [hdef_case hg]
      exact i2iBase_safety req mc

/-- C2 (counterexample): the claim says every defined seed is sent verbatim
for any model.  But the GPT text-to-image branch rebuilds the input from
scratch and drops the seed: a request with `seed = 42` yields a ShapedInput
with no seed field. -/
theorem c2_seed_counterexample :
    (shapeT2I { prompt := "p"
              , modelId := some "fal-ai/gpt-image-1/text-to-image/byok"
              , openaiApiKey := some "sk-0123456789012345678901234567890123456789"
              , seed := some 42 }).map (fun r => r.2.seed) = .ok none := rfl

/-- C2 (amended): outside the GPT text-to-image branch the ShapedInput's seed
field equals the request's seed field verbatim (present iff supplied, never
generated); the GPT text-to-image branch rebuilds the input and always drops
the seed; the image-to-image path carries the seed verbatim for every
model. -/
theorem c2_seed_amended :
    (∀ (req : GenerationRequest) (mid : String) (inp : ShapedInput),
       shapeT2I req = .ok (mid, inp) →
       ((jsIncludes mid "wan/v2.2" = true ∨ jsIncludes mid "gpt-image-1" = false) →
          inp.seed = req.seed)
       ∧ ((jsIncludes mid "wan/v2.2" = false ∧ jsIncludes mid "gpt-image-1" = true) →
          inp.seed = none))
    ∧ (∀ (req : ImageToImageRequest) (inp : ShapedInput),
       shapeI2I req = .ok inp → inp.seed = req.seed) := by
  constructor
  · intro req mid inp h
    obtain ⟨hmid, hwanb, hgptb, hdefb⟩ := shapeT2I_ok_inv h
    constructor
    · rintro (hw | hg)
      · rw [hwanb hw]
        exact t2iBase_seed req mid
      · by_cases hw2 : jsIncludes mid "wan/v2.2" = true
        · rw [hwanb hw2]
          exact t2iBase_seed req mid
        · simp only [Bool.not_eq_true] at hw2
          rw [hdefb hw2 hg]
          exact t2iBase_seed req mid
    · rintro ⟨hwf, hgt⟩
      rw [(hgptb hwf hgt).2.2.2]
  · intro req inp h
    obtain ⟨mc, binp, hm, hb, -, hseed, -, -, -⟩ := shapeI2I_ok_inv h
    obtain ⟨hmem, hid⟩ := getModelById_mem hm
    obtain ⟨hfl, hqw, hwn⟩ := registry_id_not_special hmem
    obtain ⟨hgpt_case, hdef_case⟩ := i2iBranch_nonspecial_inv
      (by rw [hid]; exact hfl) (by rw [hid]; exact hqw) (by rw [hid]; exact hwn) hb
    rw [hseed]
    by_cases hg : jsIncludes req.modelId "gpt-image-1" = true
    · rw [(hgpt_case hg).2]
      exact i2iBase_seed req mc
    · simp only [Bool.not_eq_true] at hg
      rw [hdef_case hg]
      exact i2iBase_seed req mc

/-- C5 (counterexample): the claim says both paths raise a validation error on
a malformed credential such as `"bad-format"`.  But the image-to-image path
only checks presence: the malformed credential passes through and is embedded
in the ShapedInput (the network call would be constructed with it). -/
theorem c5_credential_counterexample :
    (shapeI2I { prompt := "p", sourceImage := ⟨"https://img.example/cat.png", none⟩
              , modelId := "fal-ai/gpt-image-1/edit-image/byok"
              , openaiApiKey := some "bad-format" }).map
        (fun i => i.openai_api_key) = .ok (some "bad-format") := rfl

/-- C5 (amended): the text-to-image GPT branch raises before any network input
is produced, both when the credential is missing/empty and when it is
non-empty but malformed (no `sk-` prefix or shorter than 40 characters);
the image-to-image GPT branch raises only when the credential is
missing/empty, and otherwise embeds the caller's credential verbatim —
malformed or not — in the ShapedInput. -/
theorem c5_credential_amended :
    (∀ (req : GenerationRequest),
       jsIncludes (resolveT2IModelId req) "wan/v2.2" = false →
       jsIncludes (resolveT2IModelId req) "gpt-image-1" = true →
       (jsTruthyStr req.openaiApiKey = false →
          shapeT2I req = .error "OpenAI API key is required for GPT Image 1 models")
       ∧ (jsTruthyStr req.openaiApiKey = true →
          (jsStartsWith (req.openaiApiKey.getD "") "sk-" = false
             ∨ jsLen (req.openaiApiKey.getD "") < 40) →
          shapeT2I req = .error "Invalid OpenAI API key format. Key must start with \x22sk-\x22 and be at least 40 characters long."))
    ∧ (∀ (req : ImageToImageRequest) (inp : ShapedInput),
       shapeI2I req = .ok inp →
       jsIncludes req.modelId "gpt-image-1" = true →
       inp.openai_api_key = req.openaiApiKey)
    ∧ (∀ (req : ImageToImageRequest) (mc : ModelConfig),
       getModelById req.modelId = some mc →
       jsIncludes req.modelId "gpt-image-1" = true →
       jsTruthyStr req.openaiApiKey = false →
       shapeI2I req = .error "OpenAI API key is required for GPT Image 1 models") := by
  refine ⟨?_, ?_, ?_⟩
  · intro req hw hg
    constructor
    · intro hk
      simp only [shapeT2I]
      rw [if_neg (by simp [hw]), if_pos hg, if_pos (by simp [hk])]
    · intro hk hbad
      simp only [shapeT2I]
      rw [if_neg (by simp [hw]), if_pos hg, if_neg (by simp [hk]),
        if_pos (by rcases hbad with hb | hb
                   · exact Or.inl (by simp [hb])
                   · exact Or.inr hb)]
  · intro req inp h hg
    obtain ⟨mc, binp, hm, hb, -, -, -, -, hkey⟩ := shapeI2I_ok_inv h
    obtain ⟨hmem, hid⟩ := getModelById_mem hm
    obtain ⟨hfl, hqw, hwn⟩ := registry_id_not_special hmem
    obtain ⟨hgpt_case, -⟩ := i2iBranch_nonspecial_inv
      (by rw [hid]; exact hfl) (by rw [hid]; exact hqw) (by rw [hid]; exact hwn) hb
    rw [hkey, (hgpt_case hg).2]
  · intro req mc hm hg hk
    obtain ⟨hmem, hid⟩ := getModelById_mem hm
    obtain ⟨hfl, hqw, hwn⟩ := registry_id_not_special hmem
    have hbr : i2iBranch req (i2iBase req mc) = .error "OpenAI API key is required for GPT Image 1 models" := by
      unfold i2iBranch
      rw [if_neg (by rw [hid]; simp [hfl]), if_neg (by rw [hid]; simp [hqw]),
        if_neg (by rw [hid]; simp [hwn]), if_pos hg, if_pos (by simp [hk])]
    unfold shapeI2I
    simp [hm, hbr]

/-- C6 (counterexample): the claim says the image field shape is determined
solely by the descriptor, with the singular shape yielding `image_url` and
never `image_urls`.  But an image-to-image request for the registry's GPT
text-to-image model — whose descriptor has the singular `image_url` shape —
is rewritten by the GPT branch to carry `image_urls` and no `image_url`. -/
theorem c6_shape_counterexample :
    gptImageT2IModel.inputFormat = .image_url
    ∧ getModelById c6Req.modelId = some gptImageT2IModel
    ∧ (shapeI2I c6Req).map (fun i => (i.image_url, i.image_urls))
        = .ok (none, some ["https://img.example/cat.png"]) :=
  ⟨rfl, rfl, rfl⟩

/-- C6 (amended): for a registry descriptor with the list shape the
ShapedInput carries `image_urls` (length 1 for one source image) and never
`image_url`; for a descriptor with the singular shape the same holds
whenever the model id contains `gpt-image-1` (the GPT branch deletes the
singular field), and only otherwise does the ShapedInput carry `image_url`
and no `image_urls`.  Field shape is mutually exclusive in every case. -/
theorem c6_shape_amended (req : ImageToImageRequest) (mc : ModelConfig)
    (inp : ShapedInput)
    (hm : getModelById req.modelId = some mc)
    (h : shapeI2I req = .ok inp) :
    (mc.inputFormat = .image_urls →
       inp.image_urls = some [req.sourceImage.url] ∧ inp.image_url = none)
    ∧ (mc.inputFormat = .image_url →
       (jsIncludes req.modelId "gpt-image-1" = true →
          inp.image_urls = some [req.sourceImage.url] ∧ inp.image_url = none)
       ∧ (jsIncludes req.modelId "gpt-image-1" = false →
          inp.image_url = some req.sourceImage.url ∧ inp.image_urls = none)) := by
  obtain ⟨mc', binp, hm', hb, -, -, hurl, hurls, -⟩ := shapeI2I_ok_inv h
  rw [hm] at hm'
  obtain rfl : mc = mc' := by
    simpa using hm'
  obtain ⟨hmem, hid⟩ := getModelById_mem hm
  obtain ⟨hfl, hqw, hwn⟩ := registry_id_not_special hmem
  obtain ⟨hgpt_case, hdef_case⟩ := i2iBranch_nonspecial_inv
    (by rw [hid]; exact hfl) (by rw [hid]; exact hqw) (by rw [hid]; exact hwn) hb
  rw [hurl, hurls]
  by_cases hg : jsIncludes req.modelId "gpt-image-1" = true
  · rw [(hgpt_case hg).2]
    exact ⟨fun _ => ⟨rfl, rfl⟩,
           fun _ => ⟨fun _ => ⟨rfl, rfl⟩, fun hgf => by rw [hgf] at hg; cases hg⟩⟩
  · simp only [Bool.not_eq_true] at hg
    rw [hdef_case hg]
    refine ⟨fun hf => ?_, fun hf => ⟨fun hgt => ?_, fun _ => ?_⟩⟩
    · exact ((i2iBase_image_fields req mc).2 hf)
    · rw [hgt] at hg; cases hg
    · exact ((i2iBase_image_fields req mc).1 hf)

/-- C6 (witness): the amended claim at the SeedDream edit request — the
ShapedInput carries a one-element `image_urls` and no `image_url`. -/
theorem c6_shape_witness :
    shapeI2I c6WitnessReq = .ok c6WitnessOut
    ∧ c6WitnessOut.image_urls = some ["https://img.example/dog.png"]
    ∧ c6WitnessOut.image_url = none :=
  ⟨rfl,
   ((c6_shape_amended c6WitnessReq seedreamEditModel c6WitnessOut rfl rfl).1 rfl).1,
   ((c6_shape_amended c6WitnessReq seedreamEditModel c6WitnessOut rfl rfl).1 rfl).2⟩

/-- C3 (counterexample): the claim says a result with both `images` and
`video` empty — e.g. from a remote response carrying an empty top-level
images array — is surfaced as an error.  But a response with a present,
empty `images` array takes the already-an-array path and is returned as a
success with `images = []`. -/
theorem c3_result_counterexample :
    unifyT2I "fal-ai/fast-lightning-sdxl" none { images := some [] }
      = .ok { images := [] } := rfl

/-- C3 (amended): when the remote response carries no top-level `images`
array, a successful unification always has non-empty `images` (the
empty-conversion case throws); but when the response carries a present
`images` array it is returned as success with exactly that array's entries —
a present-but-empty array yields an empty success, not an error. -/
theorem c3_result_amended :
    (∀ (mid : String) (ar : Option String) (resp : RemoteResponse)
       (r : UnifiedResult),
       resp.images = none → unifyT2I mid ar resp = .ok r → r.images ≠ [])
    ∧ (∀ (mid : String) (ar : Option String) (l : List ImgEntry)
       (resp : RemoteResponse),
       resp.images = some l →
       ∃ r, unifyT2I mid ar resp = .ok r ∧ r.images.length = l.length) := by
  constructor
  · intro mid ar resp r h1 h2
    unfold unifyT2I at h2
    simp only [h1] at h2
    split_ifs at h2 with hlen <;>
      (simp only [Except.ok.injEq] at h2; subst h2;
       simp only [ne_eq, ← List.length_eq_zero]; omega)
  · intro mid ar l resp h
    unfold unifyT2I
    simp only [h]
    exact ⟨_, rfl, by simp⟩

/-- C3 (witness): the amended claim at a concrete response with a singular
image URL and no images array — the success is non-empty. -/
theorem c3_result_witness :
    (unifyT2I "fal-ai/fast-lightning-sdxl" none
        { image := some (.str "https://img.example/a.png") }).map (fun r => r.images)
      = .ok [⟨"https://img.example/a.png", some 1080, some 1920⟩]
    ∧ ∀ r, unifyT2I "fal-ai/fast-lightning-sdxl" none
        { image := some (.str "https://img.example/a.png") } = .ok r → r.images ≠ [] :=
  ⟨rfl, fun r h => c3_result_amended.1 "fal-ai/fast-lightning-sdxl" none
    { image := some (.str "https://img.example/a.png") } r rfl h⟩

/-- C8 (counterexample): the claim says each known shape converts for any
model; but for a model whose id contains `gpt-image-1` the conversion block
re-probes only `images`, so an `output`-shape response is rejected as
unrecognized instead of converting. -/
theorem c8_unifier_counterexample :
    unifyT2I "fal-ai/gpt-image-1/text-to-image/byok" (some "square_hd")
        { output := some (.str "https://x/y.png") }
      = .error (.unrecognized "fal-ai/gpt-image-1/text-to-image/byok"
          { output := some (.str "https://x/y.png") }) := rfl

/-- C8 (amended): a present top-level `images` array converts for every
model; the singular-image (object or non-empty string), `output` (non-empty
string or array of strings) and bare-`url` shapes convert — with missing
dimensions filled from the aspect-ratio-derived requested size — only for
models whose id does not contain `gpt-image-1`; in all converted cases
`images[0].url` is the carried URL. -/
theorem c8_unifier_amended :
    ∀ (mid : String) (ar : Option String) (u : String),
      (unifyT2I mid ar { images := some [.objE u none none] }
         = .ok (oneImageFilled ar u))
      ∧ (jsIncludes mid "gpt-image-1" = false → u ≠ "" →
           unifyT2I mid ar { image := some (.obj u none none) }
             = .ok (oneImageFilled ar u)
         ∧ unifyT2I mid ar { image := some (.str u) } = .ok (oneImageFilled ar u)
         ∧ unifyT2I mid ar { output := some (.str u) } = .ok (oneImageFilled ar u)
         ∧ unifyT2I mid ar { output := some (.arr [.strE u]) }
             = .ok (oneImageFilled ar u)
         ∧ unifyT2I mid ar { url := some u } = .ok (oneImageFilled ar u)) := by
  intro mid ar u
  refine ⟨?_, fun hg hu => ?_⟩
  · simp [unifyT2I, convertImages, normEntry, jsOrInt, oneImageFilled]
  · refine ⟨?_, ?_, ?_, ?_, ?_⟩ <;>
      simp [unifyT2I, convertImages, normEntry, jsOrInt, oneImageFilled,
        jsTruthyImage, jsTruthyOutput, jsTruthyStr, hg, hu]

/-- C8 (witness): the spec scenario — response `{"output": "https://x/y.png"}`
at requested size 1024×1024 (aspect ratio `square_hd`) yields
`images = [{url: "https://x/y.png", width: 1024, height: 1024}]`. -/
theorem c8_unifier_witness :
    unifyT2I "fal-ai/fast-lightning-sdxl" (some "square_hd")
        { output := some (.str "https://x/y.png") }
      = .ok { images := [⟨"https://x/y.png", some 1024, some 1024⟩]
            , aspectRatio := some "square_hd" } := by
  have h := ((c8_unifier_amended "fal-ai/fast-lightning-sdxl" (some "square_hd")
      "https://x/y.png").2 rfl (by decide)).2.2.1
  simpa [oneImageFilled, getCorrectDimensions, getDimensionsFromAspectRatio,
    ASPECT_RATIOS, jsTruthyStr] using h

/-- C4: a remote response matching none of the known shapes — no `images`
array, no truthy singular `image`, no truthy `output`, no truthy bare `url`,
no `video` — makes the unifier raise the unrecognized-structure error
carrying the raw response; it never returns a result.  (The `generateImage`
path ignores `video` entirely, so the hypothesis `resp.video = none` mirrors
the claim's "no video object" but is not needed by the code.) -/
theorem c4_unrecognized_error (modelId : String) (aspectRatio : Option String)
    (resp : RemoteResponse)
    (himages : resp.images = none)
    (himage : jsTruthyImage resp.image = false)
    (houtput : jsTruthyOutput resp.output = false)
    (hurl : jsTruthyStr resp.url = false)
    (hvideo : resp.video = none) :
    unifyT2I modelId aspectRatio resp = .error (.unrecognized modelId resp) := by
  have hconv : convertImages modelId (getCorrectDimensions aspectRatio) resp = [] := by
    unfold convertImages
    split_ifs with hg
    · rw [himages]
    all_goals simp_all
  simp [unifyT2I, himages, hconv]

/-- C4 (witness): the empty response is rejected with the error carrying it. -/
theorem c4_unrecognized_witness :
    unifyT2I "fal-ai/fast-lightning-sdxl" none { images := none }
      = .error (.unrecognized "fal-ai/fast-lightning-sdxl" { images := none }) :=
  c4_unrecognized_error "fal-ai/fast-lightning-sdxl" none { images := none }
    rfl rfl rfl rfl rfl

/-- `getValidDimensions` on the SeedDream text-to-image id is the independent
clamp of both axes into [1024, 4096]. -/
theorem getValidDimensions_seedreamT2I (req : Dims) :
    getValidDimensions "fal-ai/bytedance/seedream/v4/text-to-image" req =
      ⟨max 1024 (min 4096 req.width), max 1024 (min 4096 req.height)⟩ := rfl

/-- `getValidDimensions` on the SeedDream edit id is the independent clamp of
both axes into [1024, 4096]. -/
theorem getValidDimensions_seedreamEdit (req : Dims) :
    getValidDimensions "fal-ai/bytedance/seedream/v4/edit" req =
      ⟨max 1024 (min 4096 req.width), max 1024 (min 4096 req.height)⟩ := rfl

/-- C7: for every registry descriptor with custom resolution support and a
declared (truthy) `minSize`, with `maxSize` defaulting to 4096, the clamp
returns both axes within `[minSize, maxSize]`, and returns the request
unchanged when both axes are already in range. -/
theorem c7_clamp (m : ModelConfig) (c : ResolutionConstraints) (mn : Nat)
    (req : Dims)
    (hm : m ∈ AVAILABLE_MODELS)
    (hcustom : m.resolutionSupport = .custom)
    (hc : m.resolutionConstraints = some c)
    (hmin : c.minSize = some mn) (hmn : mn ≠ 0) :
    ((mn : Int) ≤ (getValidDimensions m.id req).width
      ∧ (getValidDimensions m.id req).width ≤ (jsOrNat c.maxSize 4096 : Nat)
      ∧ (mn : Int) ≤ (getValidDimensions m.id req).height
      ∧ (getValidDimensions m.id req).height ≤ (jsOrNat c.maxSize 4096 : Nat))
    ∧ (((mn : Int) ≤ req.width ∧ req.width ≤ (jsOrNat c.maxSize 4096 : Nat)
        ∧ (mn : Int) ≤ req.height ∧ req.height ≤ (jsOrNat c.maxSize 4096 : Nat))
       → getValidDimensions m.id req = req) := by
  rcases mem_AVAILABLE_MODELS hm with h | h | h | h | h | h <;> subst h <;>
    simp_all [sdxlLightningModel, seedreamT2IModel, gptImageT2IModel,
      seedreamEditModel, nanoBananaEditModel, gptImageEditModel] <;>
  · subst hc
    simp only [Option.some.injEq] at hmin
    subst hmin
    first
      | rw [getValidDimensions_seedreamT2I]
      | rw [getValidDimensions_seedreamEdit]
    obtain ⟨w, h⟩ := req
    simp only [jsOrNat, Dims.mk.injEq]
    norm_num
    exact fun h1 h2 h3 h4 => by omega

/-- C7 (witness): the SeedDream edit descriptor clamps 5000×100 into
[1024, 4096] on both axes. -/
theorem c7_clamp_witness :
    ((1024 : Int) ≤ (getValidDimensions seedreamEditModel.id ⟨5000, 100⟩).width
      ∧ (getValidDimensions seedreamEditModel.id ⟨5000, 100⟩).width ≤ (4096 : Int)
      ∧ (1024 : Int) ≤ (getValidDimensions seedreamEditModel.id ⟨5000, 100⟩).height
      ∧ (getValidDimensions seedreamEditModel.id ⟨5000, 100⟩).height ≤ (4096 : Int))
    ∧ (((1024 : Int) ≤ (5000 : Int) ∧ (5000 : Int) ≤ (4096 : Int)
        ∧ (1024 : Int) ≤ (100 : Int) ∧ (100 : Int) ≤ (4096 : Int))
       → getValidDimensions seedreamEditModel.id ⟨5000, 100⟩ = ⟨5000, 100⟩) := by
  exact c7_clamp seedreamEditModel ⟨some 1024, some 4096, none⟩ 1024 ⟨5000, 100⟩
    (by decide) rfl rfl rfl (by decide)

/-- C9: once the generation call has succeeded (and validation passed), the
reported generations are exactly the pending one followed by the completed
one, the user-visible error stays unset and `isGenerating` is cleared —
for every outcome of the directory-save and download oracles, i.e. any
failure in the auto-save step is swallowed. -/
theorem c9_save_isolation (st : FormState) (friendly : String → String)
    (o : GenerationOracles) (result : UnifiedResult)
    (h1 : jsTrim st.prompt ≠ "")
    (h2 : ¬(st.generationType = .imageToImage ∧ st.sourceImage = none))
    (h3 : st.falConfigured = true)
    (h4 : ¬(formRequiresKey st ∧ jsTrim st.openaiApiKey = ""))
    (h5 : ¬(formRequiresKey st ∧ ¬ jsStartsWith st.openaiApiKey "sk-"))
    (hg : o.genCall = .ok result) :
    (handleGenerate st friendly o).emitted =
        [{ status := .generating }, { status := .complete, images := result.images }]
      ∧ (handleGenerate st friendly o).errorMsg = none
      ∧ (handleGenerate st friendly o).isGenerating = false := by
  unfold handleGenerate
  rw [if_neg h1, if_neg h2, if_neg (by simp [h3]), if_neg h4, if_neg h5]
  rw [if_neg h2, hg]
  simp

/-- C9 (witness): a concrete successful generation whose directory save
rejects — the emission sequence ends `complete`, no error is shown, and the
save failure is recorded as swallowed. -/
theorem c9_save_isolation_witness :
    ((handleGenerate
        { generationType := .textToImage, prompt := "a skull"
        , selectedModel := "fal-ai/fast-lightning-sdxl"
        , useDirectoryPicker := true, selectedDirectoryName := some "art" }
        id
        { genCall := .ok { images := [⟨"https://img.example/out.png", some 1024, some 1024⟩] }
        , dirSave := .error "NotAllowedError: write permission lost" }).emitted =
      [{ status := .generating },
       { status := .complete
       , images := [⟨"https://img.example/out.png", some 1024, some 1024⟩] }]
    ∧ (handleGenerate
        { generationType := .textToImage, prompt := "a skull"
        , selectedModel := "fal-ai/fast-lightning-sdxl"
        , useDirectoryPicker := true, selectedDirectoryName := some "art" }
        id
        { genCall := .ok { images := [⟨"https://img.example/out.png", some 1024, some 1024⟩] }
        , dirSave := .error "NotAllowedError: write permission lost" }).errorMsg = none
    ∧ (handleGenerate
        { generationType := .textToImage, prompt := "a skull"
        , selectedModel := "fal-ai/fast-lightning-sdxl"
        , useDirectoryPicker := true, selectedDirectoryName := some "art" }
        id
        { genCall := .ok { images := [⟨"https://img.example/out.png", some 1024, some 1024⟩] }
        , dirSave := .error "NotAllowedError: write permission lost" }).isGenerating = false)
    ∧ (handleGenerate
        { generationType := .textToImage, prompt := "a skull"
        , selectedModel := "fal-ai/fast-lightning-sdxl"
        , useDirectoryPicker := true, selectedDirectoryName := some "art" }
        id
        { genCall := .ok { images := [⟨"https://img.example/out.png", some 1024, some 1024⟩] }
        , dirSave := .error "NotAllowedError: write permission lost" }).saveFailureSwallowed = true :=
  ⟨c9_save_isolation
      { generationType := .textToImage, prompt := "a skull"
      , selectedModel := "fal-ai/fast-lightning-sdxl"
      , useDirectoryPicker := true, selectedDirectoryName := some "art" }
      id
      { genCall := .ok { images := [⟨"https://img.example/out.png", some 1024, some 1024⟩] }
      , dirSave := .error "NotAllowedError: write permission lost" }
      { images := [⟨"https://img.example/out.png", some 1024, some 1024⟩] }
      (by decide) (by decide) rfl (by decide) (by decide) rfl,
   rfl⟩

/-- C10: `detectAspectRatio` always returns a member of the static
`ASPECT_RATIOS` table, and when the (exact rational) ratio `w / h` lies
outside every declared matching band — stated below by integer
cross-multiplication, e.g. missing `[0.9, 1.1]` means `10w < 9h` or
`11h < 10w` — it returns the table's default entry, which is
Portrait 9:16 at 1080×1920 and is not the square preset. -/
theorem c10_detect_default (w h : Int) (hw : 0 < w) (hh : 0 < h) :
    detectAspectRatio w h ∈ ASPECT_RATIOS
    ∧ ((10*w < 9*h ∨ 11*h < 10*w) → (5*w < 6*h ∨ 7*h < 5*w) →
       (5*w < 8*h ∨ 19*h < 10*w) → (10*w < 7*h ∨ 4*h < 5*w) →
       (2*w < h ∨ 13*h < 20*w) →
       detectAspectRatio w h = DEFAULT_ASPECT_RATIO
       ∧ DEFAULT_ASPECT_RATIO.name = "Portrait 9:16"
       ∧ DEFAULT_ASPECT_RATIO.dimensions = ⟨1080, 1920⟩
       ∧ DEFAULT_ASPECT_RATIO ≠ findRatioById "square_hd") := by
  have hhq : (0:ℚ) < (h:ℚ) := by exact_mod_cast hh
  constructor
  · unfold detectAspectRatio
    dsimp only
    split_ifs <;> decide
  · intro h1 h2 h3 h4 h5
    refine ⟨?_, rfl, rfl, by decide⟩
    have nsq : ¬((9:ℚ)/10 ≤ (w:ℚ)/(h:ℚ) ∧ (w:ℚ)/(h:ℚ) ≤ 11/10) := by
      rintro ⟨ha, hb⟩
      rw [div_le_div_iff₀ (by norm_num) hhq] at ha
      rw [div_le_div_iff₀ hhq (by norm_num)] at hb
      have ha' : (9:Int) * h ≤ w * 10 := by exact_mod_cast ha
      have hb' : (w:Int) * 10 ≤ 11 * h := by exact_mod_cast hb
      omega
    have nl43 : ¬((6:ℚ)/5 ≤ (w:ℚ)/(h:ℚ) ∧ (w:ℚ)/(h:ℚ) ≤ 7/5) := by
      rintro ⟨ha, hb⟩
      rw [div_le_div_iff₀ (by norm_num) hhq] at ha
      rw [div_le_div_iff₀ hhq (by norm_num)] at hb
      have ha' : (6:Int) * h ≤ w * 5 := by exact_mod_cast ha
      have hb' : (w:Int) * 5 ≤ 7 * h := by exact_mod_cast hb
      omega
    have nl169 : ¬((8:ℚ)/5 ≤ (w:ℚ)/(h:ℚ) ∧ (w:ℚ)/(h:ℚ) ≤ 19/10) := by
      rintro ⟨ha, hb⟩
      rw [div_le_div_iff₀ (by norm_num) hhq] at ha
      rw [div_le_div_iff₀ hhq (by norm_num)] at hb
      have ha' : (8:Int) * h ≤ w * 5 := by exact_mod_cast ha
      have hb' : (w:Int) * 10 ≤ 19 * h := by exact_mod_cast hb
      omega
    have np43 : ¬((7:ℚ)/10 ≤ (w:ℚ)/(h:ℚ) ∧ (w:ℚ)/(h:ℚ) ≤ 4/5) := by
      rintro ⟨ha, hb⟩
      rw [div_le_div_iff₀ (by norm_num) hhq] at ha
      rw [div_le_div_iff₀ hhq (by norm_num)] at hb
      have ha' : (7:Int) * h ≤ w * 10 := by exact_mod_cast ha
      have hb' : (w:Int) * 5 ≤ 4 * h := by exact_mod_cast hb
      omega
    have np169 : ¬((1:ℚ)/2 ≤ (w:ℚ)/(h:ℚ) ∧ (w:ℚ)/(h:ℚ) ≤ 13/20) := by
      rintro ⟨ha, hb⟩
      rw [div_le_div_iff₀ (by norm_num) hhq] at ha
      rw [div_le_div_iff₀ hhq (by norm_num)] at hb
      have ha' : (1:Int) * h ≤ w * 2 := by exact_mod_cast ha
      have hb' : (w:Int) * 20 ≤ 13 * h := by exact_mod_cast hb
      omega
    unfold detectAspectRatio
    dsimp only
    rw [if_neg nsq, if_neg nl43, if_neg nl169, if_neg np43, if_neg np169]

/-- C10 (witness): 1150×1000 has ratio 1.15, inside no band, and detection
returns the portrait default, not the square preset. -/
theorem c10_detect_default_witness :
    detectAspectRatio 1150 1000 = DEFAULT_ASPECT_RATIO
    ∧ DEFAULT_ASPECT_RATIO.name = "Portrait 9:16"
    ∧ DEFAULT_ASPECT_RATIO.dimensions = ⟨1080, 1920⟩
    ∧ DEFAULT_ASPECT_RATIO ≠ findRatioById "square_hd" :=
  (c10_detect_default 1150 1000 (by decide) (by decide)).2
    (by decide) (by decide) (by decide) (by decide) (by decide)

/-- C5 (witness): the text-to-image GPT branch rejects the malformed
credential `"bad-format"` before producing any network input. -/
theorem c5_credential_witness :
    shapeT2I { prompt := "p"
             , modelId := some "fal-ai/gpt-image-1/text-to-image/byok"
             , openaiApiKey := some "bad-format" }
      = .error "Invalid OpenAI API key format. Key must start with \x22sk-\x22 and be at least 40 characters long." :=
  (c5_credential_amended.1
      { prompt := "p"
      , modelId := some "fal-ai/gpt-image-1/text-to-image/byok"
      , openaiApiKey := some "bad-format" }
      (by decide) (by decide)).2 (by decide) (.inl (by decide))
